import Mathlib

/-
Shallow embedding of the flash transport layer and boot hand-off sequencer of
the ESPHostedEVB bootloader.

Sources embedded here:
- Software/Bootloader/Core/SFUD/sfud/port/sfud_port.c
  (qspi_write_read, qspi_read, spi_write_read, qspi_send_then_recv,
   qspi_entry_memory_mapped_mode, sfud_spi_port_init, spi_user_data)
- Software/Bootloader/Core/Src/main.c (JumpToApp, EntryApp)

Modelling conventions:
- Outcomes of HAL primitives (HAL_OSPI_Command, HAL_OSPI_Receive,
  HAL_OSPI_Transmit, HAL_SPI_TransmitReceive, malloc) are oracle Booleans
  passed in as parameters: true means the primitive returned HAL_OK
  (resp. a non-NULL pointer).
- The live bus-controller query
  (CR and OCTOSPI_CR_FMODE_Msk) == OCTOSPI_CR_FMODE is the Boolean
  parameter in_memory_mapping.
- Byte buffers are lists of Nat; a function that in C takes a separate
  size uses the list length as that size (the C contract requires the
  buffer to hold exactly that many bytes).
- Bus activity is recorded as an explicit event trace (chip-select edges
  and command/data phases), so no-bus-activity claims are statements
  about the trace.
- Numeric HAL constants are taken verbatim from the vendor header
  stm32h7xx_hal_ospi.h (OCTOSPI CCR field encodings); only their
  distinctness matters to the theorems below.
-/

/-- Error taxonomy of the SFUD port layer (sfud_err in C). -/
inductive sfud_err
  | SFUD_SUCCESS
  | SFUD_ERR_NOT_FOUND
  | SFUD_ERR_WRITE
  | SFUD_ERR_READ
  | SFUD_ERR_TIMEOUT
  | SFUD_ERR_ADDR_OUT_OF_BOUND
deriving Repr, DecidableEq

/-- Observable bus activity of one transport call. -/
inductive BusEvent
  | cs_assert
  | cs_deassert
  | ospi_command
  | ospi_receive
  | ospi_transmit
  | spi_transfer
deriving Repr, DecidableEq

/- Vendor HAL constants (stm32h7xx_hal_ospi.h, OCTOSPI CCR encodings). -/

def HAL_OSPI_INSTRUCTION_NONE : Nat := 0x0

def HAL_OSPI_INSTRUCTION_1_LINE : Nat := 0x1

def HAL_OSPI_INSTRUCTION_2_LINES : Nat := 0x2

def HAL_OSPI_INSTRUCTION_4_LINES : Nat := 0x3

def HAL_OSPI_INSTRUCTION_8_LINES : Nat := 0x4

def HAL_OSPI_INSTRUCTION_8_BITS : Nat := 0x0

def HAL_OSPI_ADDRESS_NONE : Nat := 0x0

def HAL_OSPI_ADDRESS_1_LINE : Nat := 0x100

def HAL_OSPI_ADDRESS_2_LINES : Nat := 0x200

def HAL_OSPI_ADDRESS_4_LINES : Nat := 0x300

def HAL_OSPI_ADDRESS_8_LINES : Nat := 0x400

def HAL_OSPI_ADDRESS_24_BITS : Nat := 0x2000

def HAL_OSPI_DATA_NONE : Nat := 0x0

def HAL_OSPI_DATA_1_LINE : Nat := 0x01000000

def HAL_OSPI_DATA_2_LINES : Nat := 0x02000000

def HAL_OSPI_DATA_4_LINES : Nat := 0x03000000

def HAL_OSPI_DATA_8_LINES : Nat := 0x04000000

/-- The fields of OSPI_RegularCmdTypeDef that the port layer writes.
Field defaults model the memset of the whole record to zero. -/
structure OSPI_RegularCmd where
  Instruction : Nat := 0
  InstructionMode : Nat := 0
  InstructionSize : Nat := 0
  Address : Nat := 0
  AddressMode : Nat := 0
  AddressSize : Nat := 0
  DummyCycles : Nat := 0
  DataMode : Nat := 0
  NbData : Nat := 0
deriving Repr, DecidableEq

/-- Outcome of qspi_send_then_recv: the sfud_err return code, the command
record handed to HAL_OSPI_Command (none when the call is rejected before
any command is built), and the bus events that occurred. -/
structure QstrResult where
  result : sfud_err
  cmd : Option OSPI_RegularCmd
  events : List BusEvent
deriving Repr, DecidableEq

/-- The command record of qspi_send_then_recv after the memset and the
instruction phase setup (sfud_port.c lines 418-434). -/
def qstr_base (send_buf : List Nat) : OSPI_RegularCmd :=
  { Instruction := send_buf.headD 0
    InstructionMode := HAL_OSPI_INSTRUCTION_1_LINE
    InstructionSize := HAL_OSPI_INSTRUCTION_8_BITS }

/-- The data-phase halves of qspi_send_then_recv (sfud_port.c lines 463-517):
dummy-cycle computation, receive or transmit, and error surfacing.
count is the number of stream bytes consumed by instruction plus address. -/
def qstr_phases (c1 : OSPI_RegularCmd) (count send_length : Nat)
    (recv_buf_present : Bool) (recv_length : Nat) (cmd_ok data_ok : Bool) :
    QstrResult :=
  if recv_buf_present then
    let c2 := { c1 with
      DummyCycles := if count ≠ send_length then (send_length - count) * 8 else 0
      DataMode := HAL_OSPI_DATA_1_LINE
      NbData := recv_length }
    if cmd_ok = false then
      { result := sfud_err.SFUD_ERR_READ, cmd := some c2,
        events := [BusEvent.ospi_command] }
    else if recv_length ≠ 0 then
      if data_ok = false then
        { result := sfud_err.SFUD_ERR_READ, cmd := some c2,
          events := [BusEvent.ospi_command, BusEvent.ospi_receive] }
      else
        { result := sfud_err.SFUD_SUCCESS, cmd := some c2,
          events := [BusEvent.ospi_command, BusEvent.ospi_receive] }
    else
      { result := sfud_err.SFUD_SUCCESS, cmd := some c2,
        events := [BusEvent.ospi_command] }
  else
    let c2 := { c1 with
      DummyCycles := 0
      DataMode := if 0 < send_length - count then HAL_OSPI_DATA_1_LINE
                  else HAL_OSPI_DATA_NONE
      NbData := send_length - count }
    if cmd_ok = false then
      { result := sfud_err.SFUD_ERR_READ, cmd := some c2,
        events := [BusEvent.ospi_command] }
    else if 0 < send_length - count then
      if data_ok = false then
        { result := sfud_err.SFUD_ERR_WRITE, cmd := some c2,
          events := [BusEvent.ospi_command, BusEvent.ospi_transmit] }
      else
        { result := sfud_err.SFUD_SUCCESS, cmd := some c2,
          events := [BusEvent.ospi_command, BusEvent.ospi_transmit] }
    else
      { result := sfud_err.SFUD_SUCCESS, cmd := some c2,
        events := [BusEvent.ospi_command] }

/-- qspi_send_then_recv (sfud_port.c lines 409-518).  Byte 0 of send_buf is
the instruction.  A stream longer than one byte must be at least four bytes
long; bytes 1, 2 and 3 then form a 24-bit big-endian address.  A stream of
length 2 or 3 is rejected with SFUD_ERR_READ before any command is built. -/
def qspi_send_then_recv (send_buf : List Nat) (recv_buf_present : Bool)
    (recv_length : Nat) (cmd_ok data_ok : Bool) : QstrResult :=
  if 1 < send_buf.length then
    if 4 ≤ send_buf.length then
      qstr_phases
        { qstr_base send_buf with
            Address := (send_buf.getD 1 0) <<< 16 ||| (send_buf.getD 2 0) <<< 8
                         ||| send_buf.getD 3 0
            AddressSize := HAL_OSPI_ADDRESS_24_BITS
            AddressMode := HAL_OSPI_ADDRESS_1_LINE }
        4 send_buf.length recv_buf_present recv_length cmd_ok data_ok
    else
      { result := sfud_err.SFUD_ERR_READ, cmd := none, events := [] }
  else
    qstr_phases
      { qstr_base send_buf with
          Address := 0
          AddressMode := HAL_OSPI_ADDRESS_NONE
          AddressSize := 0 }
      1 send_buf.length recv_buf_present recv_length cmd_ok data_ok

/-- qspi_write_read (sfud_port.c lines 102-159).  In memory-mapped mode the
call is rejected with SFUD_ERR_WRITE before the chip-select line or the bus
is touched.  Otherwise the result of the inner qspi_send_then_recv call is
discarded (the C code never assigns it to result) and the function returns
the initial SFUD_SUCCESS. -/
def qspi_write_read (in_memory_mapping has_cs : Bool)
    (write_buf : List Nat) (read_size : Nat) (cmd_ok data_ok : Bool) :
    sfud_err × List BusEvent :=
  if in_memory_mapping then
    (sfud_err.SFUD_ERR_WRITE, [])
  else
    (sfud_err.SFUD_SUCCESS,
      (if has_cs then [BusEvent.cs_assert] else [])
      ++ (if write_buf.length != 0 && read_size != 0 then
            (qspi_send_then_recv write_buf true read_size cmd_ok data_ok).events
          else if write_buf.length != 0 then
            (qspi_send_then_recv write_buf false 0 cmd_ok data_ok).events
          else [])
      ++ (if has_cs then [BusEvent.cs_deassert] else []))

/-- The read-command configuration record (sfud_qspi_read_cmd_format). -/
structure sfud_qspi_read_cmd_format where
  instruction : Nat
  instruction_lines : Nat
  address_lines : Nat
  data_lines : Nat
  dummy_cycles : Nat
deriving Repr, DecidableEq

/-- The switch on instruction_lines in qspi_read (sfud_port.c lines 186-204).
A matching case yields some mode; the default arm of the C switch is a bare
break, so no value is assigned and the memset-zeroed field keeps the value
HAL_OSPI_INSTRUCTION_NONE: this is modelled as none here, resolved with
getD 0 at the use site. -/
def instruction_mode_case : Nat → Option Nat
  | 0 => some HAL_OSPI_INSTRUCTION_NONE
  | 1 => some HAL_OSPI_INSTRUCTION_1_LINE
  | 2 => some HAL_OSPI_INSTRUCTION_2_LINES
  | 4 => some HAL_OSPI_INSTRUCTION_4_LINES
  | 8 => some HAL_OSPI_INSTRUCTION_8_LINES
  | _ => none

/-- The switch on address_lines in qspi_read (sfud_port.c lines 210-228). -/
def address_mode_case : Nat → Option Nat
  | 0 => some HAL_OSPI_ADDRESS_NONE
  | 1 => some HAL_OSPI_ADDRESS_1_LINE
  | 2 => some HAL_OSPI_ADDRESS_2_LINES
  | 4 => some HAL_OSPI_ADDRESS_4_LINES
  | 8 => some HAL_OSPI_ADDRESS_8_LINES
  | _ => none

/-- The switch on data_lines in qspi_read (sfud_port.c lines 237-255). -/
def data_mode_case : Nat → Option Nat
  | 0 => some HAL_OSPI_DATA_NONE
  | 1 => some HAL_OSPI_DATA_1_LINE
  | 2 => some HAL_OSPI_DATA_2_LINES
  | 4 => some HAL_OSPI_DATA_4_LINES
  | 8 => some HAL_OSPI_DATA_8_LINES
  | _ => none

/-- Outcome of qspi_read: return code, whether the read was served directly
from the memory-mapped window, and the command handed to HAL_OSPI_Command
(none when no bus transaction was issued). -/
structure QspiReadOutcome where
  result : sfud_err
  served_from_map : Bool
  cmd : Option OSPI_RegularCmd
deriving Repr, DecidableEq

/-- qspi_read (sfud_port.c lines 164-276).  In memory-mapped mode the read is
a plain memcpy from the mapped window and no command is issued.  Otherwise a
one-shot command plus receive is issued; the three line-width switches have
no rejecting default arm, so an unlisted width leaves the memset-zeroed mode
field at 0 and the call proceeds. -/
def qspi_read (in_memory_mapping : Bool) (addr : Nat)
    (fmt : sfud_qspi_read_cmd_format) (read_size : Nat)
    (cmd_ok data_ok : Bool) : QspiReadOutcome :=
  if in_memory_mapping then
    { result := sfud_err.SFUD_SUCCESS, served_from_map := true, cmd := none }
  else
    let c : OSPI_RegularCmd :=
      { Instruction := fmt.instruction
        InstructionMode := (instruction_mode_case fmt.instruction_lines).getD 0
        InstructionSize := HAL_OSPI_INSTRUCTION_8_BITS
        Address := addr
        AddressMode := (address_mode_case fmt.address_lines).getD 0
        AddressSize := HAL_OSPI_ADDRESS_24_BITS
        DataMode := (data_mode_case fmt.data_lines).getD 0
        NbData := read_size
        DummyCycles := fmt.dummy_cycles }
    if cmd_ok = false then
      { result := sfud_err.SFUD_ERR_READ, served_from_map := false, cmd := some c }
    else if data_ok = false then
      { result := sfud_err.SFUD_ERR_READ, served_from_map := false, cmd := some c }
    else
      { result := sfud_err.SFUD_SUCCESS, served_from_map := false, cmd := some c }

/-- The padding byte for unused send positions (SFUD_DUMMY_DATA). -/
def SFUD_DUMMY_DATA : Nat := 0xFF

/-- spi_write_read (sfud_port.c lines 278-325), the serial-transport
transaction.  Both sizes zero is rejected with SFUD_ERR_WRITE; an allocation
failure is rejected with SFUD_ERR_WRITE before the chip-select line is
touched; a failed HAL_SPI_TransmitReceive returns SFUD_ERR_TIMEOUT after
freeing the scratch buffers but without the final chip-select deassertion
write (only the success path reaches the GPIO_PIN_SET write). -/
def spi_write_read (write_buf : List Nat) (read_size : Nat)
    (malloc_ok transfer_ok : Bool) : sfud_err × List BusEvent :=
  if write_buf.length + read_size = 0 then
    (sfud_err.SFUD_ERR_WRITE, [])
  else if malloc_ok = false then
    (sfud_err.SFUD_ERR_WRITE, [])
  else if transfer_ok = false then
    (sfud_err.SFUD_ERR_TIMEOUT, [BusEvent.cs_assert, BusEvent.spi_transfer])
  else
    (sfud_err.SFUD_SUCCESS,
      [BusEvent.cs_assert, BusEvent.spi_transfer, BusEvent.cs_deassert])

/-- Final chip-select level after a trace of bus events; false means the line
is deasserted (the idle GPIO_PIN_SET level), true means asserted. -/
def cs_asserted_at_end (events : List BusEvent) : Bool :=
  events.foldl
    (fun cur e =>
      match e with
      | BusEvent.cs_assert => true
      | BusEvent.cs_deassert => false
      | _ => cur)
    false

/-- Whether an event is a command or data transfer phase on either bus. -/
def is_transfer_event : BusEvent → Bool
  | BusEvent.ospi_command => true
  | BusEvent.ospi_receive => true
  | BusEvent.ospi_transmit => true
  | BusEvent.spi_transfer => true
  | _ => false

/-- qspi_entry_memory_mapped_mode (sfud_port.c lines 520-620): a failure of
either the configuration command or the switch into memory-mapped mode
returns SFUD_ERR_READ. -/
def qspi_entry_memory_mapped_mode (cmd_ok mm_ok : Bool) : sfud_err :=
  if cmd_ok = false then sfud_err.SFUD_ERR_READ
  else if mm_ok = false then sfud_err.SFUD_ERR_READ
  else sfud_err.SFUD_SUCCESS

/-- Base address of the memory-mapped OCTOSPI1 window on the STM32H7. -/
def OCTOSPI1_BASE : Nat := 0x90000000

/-- The machine-control actions performed by JumpToApp (main.c lines 64-97),
in program order. -/
inductive JumpStep
  | store_globals (stack_top vector_addr entry_addr : Nat)
  | mpu_disable
  | dcache_disable
  | icache_disable
  | disable_irq
  | enable_irq
  | systick_ctrl (v : Nat)
  | systick_load (v : Nat)
  | systick_val (v : Nat)
  | nvic_icer (i v : Nat)
  | nvic_icpr (i v : Nat)
  | set_msp (v : Nat)
  | set_control (v : Nat)
  | set_vtor (v : Nat)
  | jump (entry : Nat)
deriving Repr, DecidableEq

/-- JumpToApp (main.c lines 64-97) as its sequence of machine-control
actions.  The elog diagnostics are omitted (the logging sink performs no
machine-control action). -/
def JumpToApp (stack_top vector_addr entry_addr : Nat) : List JumpStep :=
  [JumpStep.store_globals stack_top vector_addr entry_addr,
   JumpStep.mpu_disable, JumpStep.dcache_disable, JumpStep.icache_disable,
   JumpStep.disable_irq,
   JumpStep.systick_ctrl 0, JumpStep.systick_load 0, JumpStep.systick_val 0]
  ++ (List.range 8).flatMap
      (fun i => [JumpStep.nvic_icer i 0xFFFFFFFF, JumpStep.nvic_icpr i 0xFFFFFFFF])
  ++ [JumpStep.enable_irq,
      JumpStep.set_msp stack_top, JumpStep.set_control 0,
      JumpStep.set_vtor vector_addr,
      JumpStep.jump entry_addr]

/-- Effect of one machine-control action on the global interrupt-enable
state (PRIMASK). -/
def irq_step_update (irq : Bool) (s : JumpStep) : Bool :=
  match s with
  | JumpStep.disable_irq => false
  | JumpStep.enable_irq => true
  | _ => irq

/-- Global interrupt-enable state after running a list of actions from the
given initial state. -/
def irq_state_after (irq : Bool) (steps : List JumpStep) : Bool :=
  steps.foldl irq_step_update irq

/-- The timer and interrupt-controller quiescing actions (spec steps 5-6). -/
def is_quiesce_step : JumpStep → Bool
  | JumpStep.systick_ctrl _ => true
  | JumpStep.systick_load _ => true
  | JumpStep.systick_val _ => true
  | JumpStep.nvic_icer _ _ => true
  | JumpStep.nvic_icpr _ _ => true
  | _ => false

/-- Checks that every quiescing action in the list executes while interrupt
delivery is disabled, tracking the interrupt-enable state along the way. -/
def quiesce_guarded : Bool → List JumpStep → Bool
  | _, [] => true
  | irq, s :: rest =>
      (!(is_quiesce_step s) || !irq) && quiesce_guarded (irq_step_update irq s) rest

/-- Observable actions of the boot hand-off entry (EntryApp). -/
inductive BootEvent
  | enter_memory_mapped (r : sfud_err)
  | jump_to_app (stack_top vector_addr entry_addr : Nat)
deriving Repr, DecidableEq

/-- EntryApp (main.c lines 99-129): enters memory-mapped mode (the returned
sfud_err is not inspected by the C code), reads the two BootImageHeader words
from the mapped base, and calls JumpToApp unconditionally.  stack_word and
entry_word are the two 32-bit words read at OCTOSPI1_BASE. -/
def EntryApp (cmd_ok mm_ok : Bool) (stack_word entry_word : Nat) :
    List BootEvent :=
  [BootEvent.enter_memory_mapped (qspi_entry_memory_mapped_mode cmd_ok mm_ok),
   BootEvent.jump_to_app stack_word OCTOSPI1_BASE entry_word]

/-- Which member of the quad/serial handle union a piece of code touches. -/
inductive HandleMember
  | ospi_handle
  | spi_handle
deriving Repr, DecidableEq

/-- spi_user_data (sfud_port.c lines 52-60): the member field records which
union member the static initializer stored. -/
structure spi_user_data where
  member : HandleMember
  memory_mapped_addr : Nat
  cs_gpiox_present : Bool
deriving Repr, DecidableEq

/-- The ospi1 binding (sfud_port.c lines 73-78): stores the ospi_handle
member, the OCTOSPI1 mapped base, and no discrete chip-select pin. -/
def ospi1 : spi_user_data :=
  { member := HandleMember.ospi_handle
    memory_mapped_addr := OCTOSPI1_BASE
    cs_gpiox_present := false }

/-- The spi2 binding (sfud_port.c lines 79-83): stores the spi_handle member
and no discrete chip-select pin. -/
def spi2 : spi_user_data :=
  { member := HandleMember.spi_handle
    memory_mapped_addr := 0
    cs_gpiox_present := false }

/-- The two write-entry-point functions a device's spi.wr can be bound to. -/
inductive WrEntry
  | qspi_write_read_fn
  | spi_write_read_fn
deriving Repr, DecidableEq

/-- Which union member each write entry point dereferences: qspi_write_read
reads spi_dev ospi_handle (sfud_port.c line 118), spi_write_read reads
spi_dev spi_handle (sfud_port.c line 311). -/
def wr_member_read : WrEntry → HandleMember
  | WrEntry.qspi_write_read_fn => HandleMember.ospi_handle
  | WrEntry.spi_write_read_fn => HandleMember.spi_handle

/-- The union member the fast-read entry point qspi_read dereferences
(sfud_port.c lines 172, 265, 270). -/
def qspi_read_member_read : HandleMember := HandleMember.ospi_handle

/-- The two flash roles (flash index values SFUD_MAIN_FLASH, SFUD_EXT_FLASH). -/
inductive FlashIndex
  | SFUD_MAIN_FLASH
  | SFUD_EXT_FLASH
deriving Repr, DecidableEq

/-- The per-device interface record filled in by sfud_spi_port_init. -/
structure sfud_spi_cfg where
  wr : WrEntry
  has_qspi_read : Bool
  user_data : spi_user_data
  retry_times : Nat
deriving Repr, DecidableEq

/-- sfud_spi_port_init (sfud_port.c lines 333-366): the main-flash role gets
the quad entry points and the ospi1 binding; the external-flash role gets the
serial entry point and the spi2 binding. -/
def sfud_spi_port_init : FlashIndex → sfud_spi_cfg
  | FlashIndex.SFUD_MAIN_FLASH =>
      { wr := WrEntry.qspi_write_read_fn
        has_qspi_read := true
        user_data := ospi1
        retry_times := 60 * 10000 }
  | FlashIndex.SFUD_EXT_FLASH =>
      { wr := WrEntry.spi_write_read_fn
        has_qspi_read := false
        user_data := spi2
        retry_times := 60 * 10000 }

/-- true when a device configuration that exposes the fast-read entry point
stores the union member that entry point reads. -/
def qspi_read_member_ok (cfg : sfud_spi_cfg) : Bool :=
  !cfg.has_qspi_read || (cfg.user_data.member == qspi_read_member_read)

/-- Every branch of the phase logic issues the command record unchanged in
its Address field. -/
theorem qstr_phases_map_address (c1 : OSPI_RegularCmd) (count sl : Nat)
    (rp : Bool) (rl : Nat) (cok dok : Bool) :
    (qstr_phases c1 count sl rp rl cok dok).cmd.map OSPI_RegularCmd.Address
      = some c1.Address := by
  unfold qstr_phases
  split_ifs <;> rfl

/-- Every branch of the phase logic issues the command record unchanged in
its AddressSize field. -/
theorem qstr_phases_map_addrsize (c1 : OSPI_RegularCmd) (count sl : Nat)
    (rp : Bool) (rl : Nat) (cok dok : Bool) :
    (qstr_phases c1 count sl rp rl cok dok).cmd.map OSPI_RegularCmd.AddressSize
      = some c1.AddressSize := by
  unfold qstr_phases
  split_ifs <;> rfl

/-- In the receive direction the issued command carries the dummy-cycle count
(sl - count) * 8; the branch on count = sl collapses because the subtraction
is zero there anyway. -/
theorem qstr_phases_map_dummy (c1 : OSPI_RegularCmd) (count sl rl : Nat)
    (cok dok : Bool) :
    (qstr_phases c1 count sl true rl cok dok).cmd.map OSPI_RegularCmd.DummyCycles
      = some ((sl - count) * 8) := by
  unfold qstr_phases
  by_cases h : count = sl
  · subst h
    simp only [ne_eq, not_true_eq_false, if_false, Nat.sub_self, Nat.zero_mul]
    split_ifs <;> rfl
  · simp only [ne_eq, h, not_false_eq_true, if_true]
    split_ifs <;> rfl

/-- Claim C1: while the quad transport is in memory-mapped mode every call to
qspi_write_read returns SFUD_ERR_WRITE and performs no bus activity at all:
no chip-select edge and no command or data phase appears in the trace. -/
theorem qspi_write_read_memory_mapped_rejects (has_cs : Bool)
    (write_buf : List Nat) (read_size : Nat) (cmd_ok data_ok : Bool) :
    qspi_write_read true has_cs write_buf read_size cmd_ok data_ok
      = (sfud_err.SFUD_ERR_WRITE, []) := rfl

/-- Claim C2 (code bug): for the concrete transaction with stream
0x0B 00 00 10 and read size 4 whose command phase fails, the inner
qspi_send_then_recv reports SFUD_ERR_READ, yet qspi_write_read discards that
result and returns SFUD_SUCCESS to its caller. -/
theorem qspi_write_read_swallows_phase_failure :
    (qspi_send_then_recv [0x0B, 0x00, 0x00, 0x10] true 4 false true).result
        = sfud_err.SFUD_ERR_READ
  ∧ (qspi_write_read false false [0x0B, 0x00, 0x00, 0x10] 4 false true).1
        = sfud_err.SFUD_SUCCESS := by decide

/-- Claim C3 (code bug): when entering memory-mapped mode fails (the
configuration command is refused, so qspi_entry_memory_mapped_mode returns
SFUD_ERR_READ), EntryApp still reaches the jump to the application. -/
theorem entry_app_jumps_after_enter_failure :
    EntryApp false true 0 0
      = [BootEvent.enter_memory_mapped sfud_err.SFUD_ERR_READ,
         BootEvent.jump_to_app 0 OCTOSPI1_BASE 0]
  ∧ BootEvent.jump_to_app 0 OCTOSPI1_BASE 0 ∈ EntryApp false true 0 0 := by
  exact ⟨rfl, by decide⟩

/-- Claim C4 counterexample: with instruction_lines = 3 (outside the valid
set) and the HAL primitives succeeding, qspi_read is not rejected: it issues
a command and returns SFUD_SUCCESS, so an invalid line width is not an
input-validation failure. -/
theorem qspi_read_invalid_width_not_rejected :
    (qspi_read false 0
        { instruction := 0x6B, instruction_lines := 3, address_lines := 1,
          data_lines := 1, dummy_cycles := 0 } 4 true true).result
      = sfud_err.SFUD_SUCCESS
  ∧ (qspi_read false 0
        { instruction := 0x6B, instruction_lines := 3, address_lines := 1,
          data_lines := 1, dummy_cycles := 0 } 4 true true).cmd ≠ none := by
  decide

/-- Claim C4 as amended: each of the three phase-mode mappings of qspi_read
is total and injective over the five valid line widths 0, 1, 2, 4, 8; for a
width outside that set no switch case matches, the mode field silently keeps
its zero-initialized value (the NONE mode), and the call still proceeds and
succeeds rather than failing validation. -/
theorem qspi_read_line_mode_mapping :
    ([0, 1, 2, 4, 8].all
        (fun w => (instruction_mode_case w).isSome
          && (address_mode_case w).isSome && (data_mode_case w).isSome)) = true
  ∧ ([0, 1, 2, 4, 8].map instruction_mode_case).Nodup
  ∧ ([0, 1, 2, 4, 8].map address_mode_case).Nodup
  ∧ ([0, 1, 2, 4, 8].map data_mode_case).Nodup
  ∧ instruction_mode_case 3 = none
  ∧ address_mode_case 3 = none
  ∧ data_mode_case 3 = none
  ∧ (qspi_read false 0
        { instruction := 0x6B, instruction_lines := 3, address_lines := 3,
          data_lines := 3, dummy_cycles := 8 } 4 true true).result
      = sfud_err.SFUD_SUCCESS
  ∧ (qspi_read false 0
        { instruction := 0x6B, instruction_lines := 3, address_lines := 3,
          data_lines := 3, dummy_cycles := 8 } 4 true true).cmd.map
        OSPI_RegularCmd.InstructionMode
      = some HAL_OSPI_INSTRUCTION_NONE := by
  decide

/-- Claim C5: for any stream of length at least 4 the issued command decodes
bytes 1..3 as the 24-bit big-endian address with 24-bit address width; a
stream of length 2 or 3 fails with SFUD_ERR_READ and builds no command at
all, so no partial address is ever decoded. -/
theorem qstr_address_decode (sb : List Nat) (rp : Bool) (rl : Nat)
    (cok dok : Bool) :
    (4 ≤ sb.length →
        (qspi_send_then_recv sb rp rl cok dok).cmd.map OSPI_RegularCmd.Address
          = some ((sb.getD 1 0) <<< 16 ||| (sb.getD 2 0) <<< 8 ||| sb.getD 3 0)
      ∧ (qspi_send_then_recv sb rp rl cok dok).cmd.map OSPI_RegularCmd.AddressSize
          = some HAL_OSPI_ADDRESS_24_BITS)
  ∧ ((sb.length = 2 ∨ sb.length = 3) →
        (qspi_send_then_recv sb rp rl cok dok).result = sfud_err.SFUD_ERR_READ
      ∧ (qspi_send_then_recv sb rp rl cok dok).cmd = none) := by
  constructor
  · intro h4
    have h1 : 1 < sb.length := by omega
    unfold qspi_send_then_recv
    rw [if_pos h1, if_pos h4]
    exact ⟨qstr_phases_map_address _ _ _ _ _ _ _,
           qstr_phases_map_addrsize _ _ _ _ _ _ _⟩
  · intro h23
    have h1 : 1 < sb.length := by omega
    have h4 : ¬ 4 ≤ sb.length := by omega
    unfold qspi_send_then_recv
    rw [if_pos h1, if_neg h4]
    exact ⟨rfl, rfl⟩

/-- Witness for C5: the theorem applied to the concrete streams
0x03 01 02 03 (length 4, address 0x010203) and 0x05 0x06 (length 2). -/
theorem qstr_address_decode_witness :
    ((qspi_send_then_recv [0x03, 0x01, 0x02, 0x03] true 2 true true).cmd.map
          OSPI_RegularCmd.Address = some 0x010203
      ∧ (qspi_send_then_recv [0x03, 0x01, 0x02, 0x03] true 2 true true).cmd.map
          OSPI_RegularCmd.AddressSize = some HAL_OSPI_ADDRESS_24_BITS)
  ∧ ((qspi_send_then_recv [0x05, 0x06] true 2 true true).result
        = sfud_err.SFUD_ERR_READ
      ∧ (qspi_send_then_recv [0x05, 0x06] true 2 true true).cmd = none) :=
  ⟨(qstr_address_decode [0x03, 0x01, 0x02, 0x03] true 2 true true).1 (by decide),
   (qstr_address_decode [0x05, 0x06] true 2 true true).2 (Or.inl (by decide))⟩

/-- Claim C6 (code bug): on the bus-transfer timeout path spi_write_read
returns SFUD_ERR_TIMEOUT with the chip-select line still asserted (the
deassertion write is only reached on the success path), while on the success
path the line does end deasserted. -/
theorem spi_write_read_timeout_leaves_cs_asserted :
    (spi_write_read [0x9F] 1 true false).1 = sfud_err.SFUD_ERR_TIMEOUT
  ∧ cs_asserted_at_end (spi_write_read [0x9F] 1 true false).2 = true
  ∧ (spi_write_read [0x9F] 1 true true).1 = sfud_err.SFUD_SUCCESS
  ∧ cs_asserted_at_end (spi_write_read [0x9F] 1 true true).2 = false := by
  decide

/-- Claim C7 counterexample: qspi_write_read called in command mode with both
write_size and read_size zero returns SFUD_SUCCESS, not SFUD_ERR_WRITE. -/
theorem qspi_write_read_zero_sizes_not_rejected :
    qspi_write_read false false [] 0 true true
      = (sfud_err.SFUD_SUCCESS, []) := rfl

/-- Claim C7 as amended: with both sizes zero the serial entry point
spi_write_read returns SFUD_ERR_WRITE with no bus activity, while the quad
entry point qspi_write_read is not rejected: outside memory-mapped mode it
returns SFUD_SUCCESS and performs no command or data phase, and in
memory-mapped mode it returns SFUD_ERR_WRITE from the mode check alone. -/
theorem zero_size_call_behaviour :
    (∀ mok tok : Bool, spi_write_read [] 0 mok tok = (sfud_err.SFUD_ERR_WRITE, []))
  ∧ (∀ hc cok dok : Bool,
        (qspi_write_read false hc [] 0 cok dok).1 = sfud_err.SFUD_SUCCESS
      ∧ ((qspi_write_read false hc [] 0 cok dok).2.all
            (fun e => !(is_transfer_event e))) = true)
  ∧ (∀ hc cok dok : Bool,
        (qspi_write_read true hc [] 0 cok dok).1 = sfud_err.SFUD_ERR_WRITE) :=
  ⟨fun _ _ => rfl,
   fun hc cok dok => by cases hc <;> exact ⟨rfl, rfl⟩,
   fun _ _ _ => rfl⟩

/-- Claim C8 counterexample: the last action of JumpToApp is the transfer of
control, and the global interrupt-enable state just before it is true: the
re-enable after the interrupt-controller masking is permanent, so interrupt
delivery is not disabled at the moment control is transferred. -/
theorem jump_irq_enabled_at_transfer :
    (JumpToApp 0 0 0).getLast? = some (JumpStep.jump 0)
  ∧ irq_state_after true ((JumpToApp 0 0 0).dropLast) = true
  ∧ ¬ (irq_state_after true ((JumpToApp 0 0 0).dropLast) = false) := by
  decide

/-- Claim C8 as amended: interrupt delivery is disabled globally before every
timer and interrupt-controller quiescing action, and after the masking step
it is re-enabled and remains enabled at the moment control is transferred to
the application entry address. -/
theorem jump_irq_discipline (st va en : Nat) :
    quiesce_guarded true (JumpToApp st va en) = true
  ∧ irq_state_after true ((JumpToApp st va en).dropLast) = true
  ∧ (JumpToApp st va en).getLast? = some (JumpStep.jump en) :=
  ⟨rfl, rfl, rfl⟩

/-- Claim C9: for a receive transaction the issued command's dummy-cycle
count is 8 times the stream bytes beyond those consumed by instruction plus
address: 0 for a bare one-byte instruction stream, and
8 * (length - 4) for a stream with a three-byte address, which is 0 exactly
when the stream holds only the instruction and address bytes. -/
theorem qstr_dummy_cycles (sb : List Nat) (rl : Nat) (cok dok : Bool) :
    (sb.length = 1 →
        (qspi_send_then_recv sb true rl cok dok).cmd.map OSPI_RegularCmd.DummyCycles
          = some 0)
  ∧ (4 ≤ sb.length →
        (qspi_send_then_recv sb true rl cok dok).cmd.map OSPI_RegularCmd.DummyCycles
          = some (8 * (sb.length - 4))) := by
  constructor
  · intro h1
    have hn : ¬ 1 < sb.length := by omega
    unfold qspi_send_then_recv
    rw [if_neg hn, qstr_phases_map_dummy, h1]
  · intro h4
    have h1 : 1 < sb.length := by omega
    unfold qspi_send_then_recv
    rw [if_pos h1, if_pos h4, qstr_phases_map_dummy, Nat.mul_comm]

/-- Witness for C9: the theorem applied to the one-byte stream 0x06 (dummy
cycles 0) and the five-byte stream 0x0B 01 02 03 04 (dummy cycles 8). -/
theorem qstr_dummy_cycles_witness :
    (qspi_send_then_recv [0x06] true 4 true true).cmd.map
        OSPI_RegularCmd.DummyCycles = some 0
  ∧ (qspi_send_then_recv [0x0B, 0x01, 0x02, 0x03, 0x04] true 4 true true).cmd.map
        OSPI_RegularCmd.DummyCycles = some 8 :=
  ⟨(qstr_dummy_cycles [0x06] 4 true true).1 (by decide),
   (qstr_dummy_cycles [0x0B, 0x01, 0x02, 0x03, 0x04] 4 true true).2 (by decide)⟩

/-- Claim C10: sfud_spi_port_init binds the main-flash role to the quad
entry points together with the ospi1 binding and the external-flash role to
the serial entry point together with the spi2 binding; for every role the
union member dereferenced by the bound write entry point, and by the
fast-read entry point when it is exposed, is exactly the member the stored
binding initialized, so the handle union is never read through the wrong
member. -/
theorem sfud_port_init_role_binding :
    (sfud_spi_port_init FlashIndex.SFUD_MAIN_FLASH).wr = WrEntry.qspi_write_read_fn
  ∧ (sfud_spi_port_init FlashIndex.SFUD_MAIN_FLASH).has_qspi_read = true
  ∧ (sfud_spi_port_init FlashIndex.SFUD_MAIN_FLASH).user_data = ospi1
  ∧ (sfud_spi_port_init FlashIndex.SFUD_EXT_FLASH).wr = WrEntry.spi_write_read_fn
  ∧ (sfud_spi_port_init FlashIndex.SFUD_EXT_FLASH).has_qspi_read = false
  ∧ (sfud_spi_port_init FlashIndex.SFUD_EXT_FLASH).user_data = spi2
  ∧ ospi1.member = HandleMember.ospi_handle
  ∧ spi2.member = HandleMember.spi_handle
  ∧ (∀ idx : FlashIndex,
        wr_member_read (sfud_spi_port_init idx).wr
          = (sfud_spi_port_init idx).user_data.member)
  ∧ (∀ idx : FlashIndex, qspi_read_member_ok (sfud_spi_port_init idx) = true) :=
  ⟨rfl, rfl, rfl, rfl, rfl, rfl, rfl, rfl,
   fun idx => by cases idx <;> rfl,
   fun idx => by cases idx <;> rfl⟩
